import Mathlib

/-!
# kind configuration API `v1alpha4`

A shallow embedding of `pkg/apis/config/v1alpha4/types.go`: the configuration
types of a `kind` cluster and the string constants declared next to them.

Go string types (`type NodeRole string`) are embedded as one-field structures
over `String`, so that, as in Go, each is a type of its own whose values are
exactly the strings. Go `int32` fields are embedded as `Int`; no arithmetic is
done on them. The zero value of every field is its default here.
-/

namespace V1alpha4

/-! ## String types and their declared constants -/

/-- NodeRole defines possible role for nodes in a Kubernetes cluster managed by
kind (`type NodeRole string`). -/
structure NodeRole where
  val : String
deriving DecidableEq, Repr

/-- ControlPlaneRole identifies a node that hosts a Kubernetes control-plane. -/
def ControlPlaneRole : NodeRole := ⟨"control-plane"⟩

/-- WorkerRole identifies a node that hosts a Kubernetes worker. -/
def WorkerRole : NodeRole := ⟨"worker"⟩

/-- The constants of type `NodeRole` declared in types.go, in source order. -/
def NodeRole.declared : List NodeRole := [ControlPlaneRole, WorkerRole]

/-- ClusterIPFamily defines cluster network IP family
(`type ClusterIPFamily string`). -/
structure ClusterIPFamily where
  val : String
deriving DecidableEq, Repr

/-- IPv4Family sets ClusterIPFamily to ipv4. -/
def IPv4Family : ClusterIPFamily := ⟨"ipv4"⟩

/-- IPv6Family sets ClusterIPFamily to ipv6. -/
def IPv6Family : ClusterIPFamily := ⟨"ipv6"⟩

/-- The constants of type `ClusterIPFamily` declared in types.go, in source
order. -/
def ClusterIPFamily.declared : List ClusterIPFamily := [IPv4Family, IPv6Family]

/-- MountPropagation represents an "enum" for mount propagation options
(`type MountPropagation string`). -/
structure MountPropagation where
  val : String
deriving DecidableEq, Repr

/-- MountPropagationNone specifies that no mount propagation. -/
def MountPropagationNone : MountPropagation := ⟨"None"⟩

/-- MountPropagationHostToContainer specifies that mounts get propagated from
the host to the container. -/
def MountPropagationHostToContainer : MountPropagation := ⟨"HostToContainer"⟩

/-- MountPropagationBidirectional specifies that mounts get propagated from the
host to the container and from the container to the host. -/
def MountPropagationBidirectional : MountPropagation := ⟨"Bidirectional"⟩

/-- The constants of type `MountPropagation` declared in types.go, in source
order. -/
def MountPropagation.declared : List MountPropagation :=
  [MountPropagationNone, MountPropagationHostToContainer, MountPropagationBidirectional]

/-- PortMappingProtocol represents an "enum" for port mapping protocol options
(`type PortMappingProtocol string`). -/
structure PortMappingProtocol where
  val : String
deriving DecidableEq, Repr

/-- PortMappingProtocolTCP specifies TCP protocol. -/
def PortMappingProtocolTCP : PortMappingProtocol := ⟨"TCP"⟩

/-- PortMappingProtocolUDP specifies UDP protocol. -/
def PortMappingProtocolUDP : PortMappingProtocol := ⟨"UDP"⟩

/-- PortMappingProtocolSCTP specifies SCTP protocol. -/
def PortMappingProtocolSCTP : PortMappingProtocol := ⟨"SCTP"⟩

/-- The constants of type `PortMappingProtocol` declared in types.go, in source
order. -/
def PortMappingProtocol.declared : List PortMappingProtocol :=
  [PortMappingProtocolTCP, PortMappingProtocolUDP, PortMappingProtocolSCTP]

/-! ## Structures -/

/-- TypeMeta partially copies apimachinery/pkg/apis/meta/v1.TypeMeta. -/
structure TypeMeta where
  Kind : String := ""
  APIVersion : String := ""
deriving DecidableEq, Repr

/-- PatchJSON6902 represents an inline kustomize json 6902 patch. The struct of
types.go has exactly these four fields. -/
structure PatchJSON6902 where
  Group : String := ""
  Version : String := ""
  Kind : String := ""
  Patch : String := ""
deriving DecidableEq, Repr

/-- The yaml keys of the fields of `PatchJSON6902`, read off the struct tags in
source order. -/
def PatchJSON6902.yamlKeys : List String := ["group", "version", "kind", "patch"]

/-- Mount specifies a host volume to mount into a container. -/
structure Mount where
  ContainerPath : String := ""
  HostPath : String := ""
  Readonly : Bool := false
  SelinuxRelabel : Bool := false
  Propagation : MountPropagation := ⟨""⟩
deriving DecidableEq, Repr

/-- PortMapping specifies a host port mapped into a container port. The two
ports are `int32` in the source. -/
structure PortMapping where
  ContainerPort : Int := 0
  HostPort : Int := 0
  ListenAddress : String := ""
  Protocol : PortMappingProtocol := ⟨""⟩
deriving DecidableEq, Repr

/-- Networking contains cluster wide network settings. -/
structure Networking where
  IPFamily : ClusterIPFamily := ⟨""⟩
  APIServerPort : Int := 0
  APIServerAddress : String := ""
  PodSubnet : String := ""
  ServiceSubnet : String := ""
  DisableDefaultCNI : Bool := false
deriving DecidableEq, Repr

/-- Node contains settings for a node in the kind Cluster. -/
structure Node where
  Role : NodeRole := ⟨""⟩
  Image : String := ""
  ExtraMounts : List Mount := []
  ExtraPortMappings : List PortMapping := []
  ExtraDockerOptions : List String := []
  KubeadmConfigPatches : List String := []
  KubeadmConfigPatchesJSON6902 : List PatchJSON6902 := []
deriving DecidableEq, Repr

/-- Cluster contains kind cluster configuration. `TypeMeta` is embedded inline
in the source. -/
structure Cluster where
  TypeMeta : TypeMeta := {}
  Nodes : List Node := []
  Networking : Networking := {}
  KubeadmConfigPatches : List String := []
  KubeadmConfigPatchesJSON6902 : List PatchJSON6902 := []
  ContainerdConfigPatches : List String := []
  ContainerdConfigPatchesJSON6902 : List String := []
deriving DecidableEq, Repr

/-! ## Patch composition

types.go declares the patch sequences and documents how they are applied; the
functions that apply them are not part of it. They are modelled below from the
specification (sections 4.2, 4.3 and 7). The RFC 7386 and RFC 6902 algorithms
are external and enter as the fields of a `PatchEngine`. -/

/-- Modelled from the spec: the target-config-kind of section 4.3, "one of
{kubeadm-config, runtime-config}"; types.go has no such type. -/
inductive TargetKind where
  | kubeadmConfig
  | runtimeConfig
deriving DecidableEq, Repr

/-- Modelled from the spec: the scope of the glossary, "cluster-wide (applies to
every node) or node-specific"; types.go has no such type. -/
inductive Scope where
  | cluster
  | node
deriving DecidableEq, Repr

/-- Modelled from the spec: the two patch formats of the glossary; types.go has
no such type. -/
inductive PatchFormat where
  | mergePatch
  | json6902
deriving DecidableEq, Repr

/-- Modelled from the spec: the error kinds of section 7 that a patch algorithm
can raise, `PatchParseError` and `PatchApplyError`; types.go has no such type. -/
inductive PatchFailure where
  | PatchParseError
  | PatchApplyError
deriving DecidableEq, Repr

/-- Modelled from the spec: the error of a composition (section 7), the failure
"reported with enough context (scope, patch index, target-kind) to locate the
offending patch"; types.go has no such type. -/
structure CompositionError where
  failure : PatchFailure
  scope : Scope
  format : PatchFormat
  index : Nat
  target : TargetKind
deriving DecidableEq, Repr

/-- Modelled from the spec: the external collaborators of section 4.3, which the
spec leaves to the RFC 7386 and RFC 6902 standards. `typeMeta` reads the own
(apiVersion, kind) of a document, `applyMergePatch` applies one merge-patch
body and `applyJSON6902` one JSON-Patch body; either can fail. Whether a
merge-patch concerns a document (its own `kind` and `apiVersion` keys, as
types.go documents) is decided inside `applyMergePatch`. -/
structure PatchEngine (Doc : Type) where
  typeMeta : Doc → TypeMeta
  applyMergePatch : Doc → String → Except PatchFailure Doc
  applyJSON6902 : Doc → String → Except PatchFailure Doc

/-- Modelled from the spec: does the selector of a JSON-Patch match a document
(section 3, PatchJSON6902); the matching function is not part of types.go. The
kind "must match the Kind of the generated target document"; "group+version, if
both given, must match the target apiVersion (group+"/"+version)"; "if only one
of group/version is given the selector still constrains on Kind alone". -/
def PatchJSON6902.selects (p : PatchJSON6902) (m : TypeMeta) : Bool :=
  p.Kind == m.Kind &&
    (if p.Group ≠ "" ∧ p.Version ≠ "" then m.APIVersion == p.Group ++ "/" ++ p.Version
     else true)

/-- Modelled from the spec: one JSON-Patch document of a registry sequence,
"optionally targeted to a specific (group, version, kind) resource selector"
(section 2). The kubeadm patches of types.go carry a selector, the containerd
ones are plain strings and carry none. -/
inductive JSONPatchDoc where
  | selected (p : PatchJSON6902)
  | plain (patch : String)
deriving DecidableEq, Repr

/-- Modelled from the spec: the four ordered sequences the registry exposes for
one scope (section 4.2); types.go has no such type. -/
structure ScopePatches where
  kubeadmMerge : List String := []
  kubeadmJSON : List PatchJSON6902 := []
  runtimeMerge : List String := []
  runtimeJSON : List String := []
deriving DecidableEq, Repr

/-- Modelled from the spec: the merge-patch sequence of a scope for a target
kind (section 4.2). -/
def ScopePatches.merge (s : ScopePatches) : TargetKind → List String
  | .kubeadmConfig => s.kubeadmMerge
  | .runtimeConfig => s.runtimeMerge

/-- Modelled from the spec: the JSON-Patch sequence of a scope for a target
kind (section 4.2). -/
def ScopePatches.json (s : ScopePatches) : TargetKind → List JSONPatchDoc
  | .kubeadmConfig => s.kubeadmJSON.map JSONPatchDoc.selected
  | .runtimeConfig => s.runtimeJSON.map JSONPatchDoc.plain

/-- Modelled from the spec: the Patch Registry of section 4.2, the cluster-level
sequences and, by node index, the node-level ones; types.go has no such type. -/
structure PatchRegistry where
  cluster : ScopePatches := {}
  nodes : List ScopePatches := []
deriving DecidableEq, Repr

/-- Modelled from the spec: the node-level sequences at a node index. An index
past the declared nodes has none (the single implied node of an empty `Nodes`). -/
def PatchRegistry.node (r : PatchRegistry) (nodeIndex : Nat) : ScopePatches :=
  (r.nodes[nodeIndex]?).getD {}

/-- Modelled from the spec: the node-level sequences of one node. A Node of
types.go has kubeadm patches only. -/
def nodePatches (n : Node) : ScopePatches :=
  { kubeadmMerge := n.KubeadmConfigPatches
    kubeadmJSON := n.KubeadmConfigPatchesJSON6902 }

/-- Modelled from the spec: `BuildRegistry(Cluster) -> PatchRegistry` of section
6, a "pure projection" that keeps declaration order (section 4.2); the function
is not part of types.go. -/
def BuildRegistry (c : Cluster) : PatchRegistry :=
  { cluster :=
      { kubeadmMerge := c.KubeadmConfigPatches
        kubeadmJSON := c.KubeadmConfigPatchesJSON6902
        runtimeMerge := c.ContainerdConfigPatches
        runtimeJSON := c.ContainerdConfigPatchesJSON6902 }
    nodes := c.Nodes.map nodePatches }

/-- Modelled from the spec: applying one JSON-Patch document (section 4.3 step
3). A document whose selector does not match is left as it is, which is not an
error (section 7, SelectorMismatch); a document without selector always
applies. -/
def applyJSONPatchDoc {Doc : Type} (E : PatchEngine Doc) (d : Doc) :
    JSONPatchDoc → Except PatchFailure Doc
  | .selected p => if p.selects (E.typeMeta d) then E.applyJSON6902 d p.Patch else .ok d
  | .plain patch => E.applyJSON6902 d patch

/-- Modelled from the spec: one stage of section 4.3, the patches of one
sequence applied in declaration order starting at index `i`. The first failure
aborts; the effects of the patches applied before it remain. -/
def runStage {Doc P : Type} (apply : Doc → P → Except PatchFailure Doc)
    (ctx : Nat → PatchFailure → CompositionError) :
    Nat → List P → Doc → Doc × Option CompositionError
  | _, [], d => (d, none)
  | i, p :: ps, d =>
    match apply d p with
    | .ok d1 => runStage apply ctx (i + 1) ps d1
    | .error f => (d, some (ctx i f))

/-- Modelled from the spec: a merge-patch stage (section 4.3 steps 2 and 4). -/
def mergeStage {Doc : Type} (E : PatchEngine Doc) (scope : Scope) (target : TargetKind)
    (patches : List String) (d : Doc) : Doc × Option CompositionError :=
  runStage E.applyMergePatch (fun i f => ⟨f, scope, .mergePatch, i, target⟩) 0 patches d

/-- Modelled from the spec: a JSON-Patch stage (section 4.3 steps 3 and 5). -/
def jsonStage {Doc : Type} (E : PatchEngine Doc) (scope : Scope) (target : TargetKind)
    (patches : List JSONPatchDoc) (d : Doc) : Doc × Option CompositionError :=
  runStage (applyJSONPatchDoc E) (fun i f => ⟨f, scope, .json6902, i, target⟩) 0 patches d

/-- Modelled from the spec: `Compose(baseDocument, targetKind, nodeIndex,
PatchRegistry) -> (finalDocument, CompositionError?)` of sections 4.3 and 6;
the function is not part of types.go. The five steps of section 4.3 are written
out one after the other; a failing stage ends the composition. -/
def Compose {Doc : Type} (E : PatchEngine Doc) (baseDocument : Doc) (targetKind : TargetKind)
    (nodeIndex : Nat) (registry : PatchRegistry) : Doc × Option CompositionError :=
  match mergeStage E .cluster targetKind (registry.cluster.merge targetKind) baseDocument with
  | (d, some e) => (d, some e)
  | (d1, none) =>
    match jsonStage E .cluster targetKind (registry.cluster.json targetKind) d1 with
    | (d, some e) => (d, some e)
    | (d2, none) =>
      match mergeStage E .node targetKind ((registry.node nodeIndex).merge targetKind) d2 with
      | (d, some e) => (d, some e)
      | (d3, none) =>
        jsonStage E .node targetKind ((registry.node nodeIndex).json targetKind) d3

/-! ### The composition order as one sequence

The reference the composition is compared with: every patch of the four stages
as one step of a single list, applied from left to right. -/

/-- One patch as a step of the flat sequence: its scope, its index in its own
sequence, and the patch. -/
inductive PatchStep where
  | merge (scope : Scope) (index : Nat) (patch : String)
  | json (scope : Scope) (index : Nat) (patch : JSONPatchDoc)
deriving DecidableEq, Repr

/-- The steps of a merge-patch sequence, numbered from `i` in declaration
order. -/
def mergeSteps (scope : Scope) : Nat → List String → List PatchStep
  | _, [] => []
  | i, p :: ps => .merge scope i p :: mergeSteps scope (i + 1) ps

/-- The steps of a JSON-Patch sequence, numbered from `i` in declaration
order. -/
def jsonSteps (scope : Scope) : Nat → List JSONPatchDoc → List PatchStep
  | _, [] => []
  | i, p :: ps => .json scope i p :: jsonSteps scope (i + 1) ps

/-- Applying one step to a document. -/
def applyStep {Doc : Type} (E : PatchEngine Doc) (target : TargetKind) (d : Doc) :
    PatchStep → Except CompositionError Doc
  | .merge scope i patch =>
    match E.applyMergePatch d patch with
    | .ok d1 => .ok d1
    | .error f => .error ⟨f, scope, .mergePatch, i, target⟩
  | .json scope i patch =>
    match applyJSONPatchDoc E d patch with
    | .ok d1 => .ok d1
    | .error f => .error ⟨f, scope, .json6902, i, target⟩

/-- Applying a list of steps from left to right; the first failing step ends it
and the document reached so far is returned with the error. -/
def applyInOrder {Doc : Type} (E : PatchEngine Doc) (target : TargetKind) :
    List PatchStep → Doc → Doc × Option CompositionError
  | [], d => (d, none)
  | s :: ss, d =>
    match applyStep E target d s with
    | .ok d1 => applyInOrder E target ss d1
    | .error e => (d, some e)

/-! ## Defaulting and validation

Neither function is part of types.go; both are modelled from the specification
(sections 3, 4.1, 6 and 7). The parser of network prefixes is external and
enters `Validate` as the parameter `validCIDR`. -/

/-- Modelled from the spec: the role a node has once an unset Role is defaulted,
"unset Role defaults to control-plane" (section 4.1; section 6 names the
defaulting service that fills an unset Role). types.go documents the default at
the field (`Defaults to "control-plane"`); the defaulting function is not part
of it. -/
def defaultedRole (n : Node) : NodeRole :=
  if n.Role = ⟨""⟩ then ControlPlaneRole else n.Role

/-- Modelled from the spec: the field a validation error refers to, the "field
path" of section 7; types.go has no such type. Nodes, mounts, port mappings and
patches are named by their position. -/
inductive FieldPath where
  | podSubnet
  | serviceSubnet
  | nodeRole (node : Nat)
  | mountContainerPath (node mount : Nat)
  | mountHostPath (node mount : Nat)
  | containerPort (node mapping : Nat)
  | hostPort (node mapping : Nat)
  | clusterPatchKind (index : Nat)
  | clusterPatchBody (index : Nat)
  | nodePatchKind (node index : Nat)
  | nodePatchBody (node index : Nat)
deriving DecidableEq, Repr

/-- Modelled from the spec: `ValidationError`, "field path + reason" (section
7); types.go has no such type. -/
structure ValidationError where
  field : FieldPath
  reason : String
deriving DecidableEq, Repr

/-- Modelled from the spec: the errors of every element of a list, each element
checked with its position, starting at position `i`. -/
def collectIndexed {α ε : Type} (check : Nat → α → List ε) : Nat → List α → List ε
  | _, [] => []
  | i, x :: xs => check i x ++ collectIndexed check (i + 1) xs

/-- Modelled from the spec: "Networking CIDRs parse as valid network prefixes"
(section 4.1), for a subnet that is present (section 3: "CIDR strings, when
present"). -/
def validateSubnet (validCIDR : String → Bool) (field : FieldPath) (subnet : String) :
    List ValidationError :=
  if subnet ≠ "" ∧ validCIDR subnet = false then [⟨field, "not a valid network prefix"⟩] else []

/-- Modelled from the spec: "Node Role is one of the closed enum values; unset
Role defaults to control-plane for validation purposes only" (section 4.1). -/
def validateRole (node : Nat) (n : Node) : List ValidationError :=
  if defaultedRole n ∈ NodeRole.declared then [] else [⟨.nodeRole node, "unknown role"⟩]

/-- Modelled from the spec: "Every Mount has non-empty ContainerPath and
HostPath" (section 4.1). -/
def validateMount (node mount : Nat) (m : Mount) : List ValidationError :=
  (if m.ContainerPath = "" then [⟨.mountContainerPath node mount, "empty path"⟩] else []) ++
  (if m.HostPath = "" then [⟨.mountHostPath node mount, "empty path"⟩] else [])

/-- Modelled from the spec: "Every PortMapping port value, if non-zero, is
within 1–65535" (section 4.1). -/
def validatePort (field : FieldPath) (port : Int) : List ValidationError :=
  if port ≠ 0 ∧ ¬ (1 ≤ port ∧ port ≤ 65535) then [⟨field, "port out of range"⟩] else []

/-- Modelled from the spec: both ports of a port mapping (section 4.1). -/
def validatePortMapping (node mapping : Nat) (pm : PortMapping) : List ValidationError :=
  validatePort (.containerPort node mapping) pm.ContainerPort ++
  validatePort (.hostPort node mapping) pm.HostPort

/-- Modelled from the spec: "Every PatchJSON6902 has a non-empty Kind and a
non-empty Patch body" (section 4.1). -/
def validatePatch (kindField bodyField : FieldPath) (p : PatchJSON6902) :
    List ValidationError :=
  (if p.Kind = "" then [⟨kindField, "empty kind"⟩] else []) ++
  (if p.Patch = "" then [⟨bodyField, "empty patch"⟩] else [])

/-- Modelled from the spec: all checks of one node (section 4.1). -/
def validateNode (node : Nat) (n : Node) : List ValidationError :=
  validateRole node n ++
  collectIndexed (validateMount node) 0 n.ExtraMounts ++
  collectIndexed (validatePortMapping node) 0 n.ExtraPortMappings ++
  collectIndexed (fun i p => validatePatch (.nodePatchKind node i) (.nodePatchBody node i) p) 0
    n.KubeadmConfigPatchesJSON6902

/-- Modelled from the spec: `Validate(Cluster) -> ValidationError[]` (sections
4.1 and 6), the five checks listed in section 4.1, every violation collected;
the function is not part of types.go. A cluster is valid when the list is
empty. -/
def Validate (validCIDR : String → Bool) (c : Cluster) : List ValidationError :=
  validateSubnet validCIDR .podSubnet c.Networking.PodSubnet ++
  validateSubnet validCIDR .serviceSubnet c.Networking.ServiceSubnet ++
  collectIndexed validateNode 0 c.Nodes ++
  collectIndexed (fun i p => validatePatch (.clusterPatchKind i) (.clusterPatchBody i) p) 0
    c.KubeadmConfigPatchesJSON6902

/-- Modelled from the spec: what it is for a cluster to violate a check of
section 4.1 at a field, stated on the cluster itself and not on the list that
`Validate` builds. `Validate` is compared with it. -/
def Violation (validCIDR : String → Bool) (c : Cluster) : FieldPath → Prop
  | .podSubnet => c.Networking.PodSubnet ≠ "" ∧ validCIDR c.Networking.PodSubnet = false
  | .serviceSubnet =>
    c.Networking.ServiceSubnet ≠ "" ∧ validCIDR c.Networking.ServiceSubnet = false
  | .nodeRole i => ∃ n, c.Nodes[i]? = some n ∧ defaultedRole n ∉ NodeRole.declared
  | .mountContainerPath i j =>
    ∃ n m, c.Nodes[i]? = some n ∧ n.ExtraMounts[j]? = some m ∧ m.ContainerPath = ""
  | .mountHostPath i j =>
    ∃ n m, c.Nodes[i]? = some n ∧ n.ExtraMounts[j]? = some m ∧ m.HostPath = ""
  | .containerPort i j =>
    ∃ n pm, c.Nodes[i]? = some n ∧ n.ExtraPortMappings[j]? = some pm ∧
      pm.ContainerPort ≠ 0 ∧ ¬ (1 ≤ pm.ContainerPort ∧ pm.ContainerPort ≤ 65535)
  | .hostPort i j =>
    ∃ n pm, c.Nodes[i]? = some n ∧ n.ExtraPortMappings[j]? = some pm ∧
      pm.HostPort ≠ 0 ∧ ¬ (1 ≤ pm.HostPort ∧ pm.HostPort ≤ 65535)
  | .clusterPatchKind i => ∃ p, c.KubeadmConfigPatchesJSON6902[i]? = some p ∧ p.Kind = ""
  | .clusterPatchBody i => ∃ p, c.KubeadmConfigPatchesJSON6902[i]? = some p ∧ p.Patch = ""
  | .nodePatchKind i j =>
    ∃ n p, c.Nodes[i]? = some n ∧ n.KubeadmConfigPatchesJSON6902[j]? = some p ∧ p.Kind = ""
  | .nodePatchBody i j =>
    ∃ n p, c.Nodes[i]? = some n ∧ n.KubeadmConfigPatchesJSON6902[j]? = some p ∧ p.Patch = ""

/-! ## Sample instances

Concrete instances of the external parts, used to evaluate the definitions
above on examples. -/

/-- The pieces of a character list between the occurrences of `sep`. -/
def splitOnChar (sep : Char) : List Char → List (List Char)
  | [] => [[]]
  | c :: cs =>
    if c = sep then [] :: splitOnChar sep cs
    else
      match splitOnChar sep cs with
      | [] => [[c]]
      | w :: ws => (c :: w) :: ws

/-- A decimal numeral of one to three digits whose value is at most `bound`. -/
def decimalUpTo (bound : Nat) (cs : List Char) : Bool :=
  decide (0 < cs.length) && decide (cs.length ≤ 3) && cs.all Char.isDigit &&
    decide (cs.foldl (fun acc c => 10 * acc + (c.toNat - 48)) 0 ≤ bound)

/-- A sample recogniser of IPv4 network prefixes `a.b.c.d/len`, standing for the
external parser of network prefixes. -/
def isIPv4CIDR (s : String) : Bool :=
  match splitOnChar '/' s.data with
  | [addr, len] =>
    decide ((splitOnChar '.' addr).length = 4) &&
      (splitOnChar '.' addr).all (decimalUpTo 255) && decimalUpTo 32 len
  | _ => false

/-- A document that records its own type and, in order, every patch applied to
it. -/
structure TraceDoc where
  typeMeta : TypeMeta := {}
  applied : List (PatchFormat × String) := []
deriving DecidableEq, Repr

/-- A sample engine over `TraceDoc`: applying a patch appends it to the record;
an empty patch body does not parse. -/
def traceEngine : PatchEngine TraceDoc where
  typeMeta d := d.typeMeta
  applyMergePatch d p :=
    if p = "" then .error .PatchParseError
    else .ok { d with applied := d.applied ++ [(.mergePatch, p)] }
  applyJSON6902 d p :=
    if p = "" then .error .PatchParseError
    else .ok { d with applied := d.applied ++ [(.json6902, p)] }

/-- A sample base document: a kubeadm ClusterConfiguration with nothing applied
to it yet. -/
def sampleBase : TraceDoc :=
  { typeMeta := { Kind := "ClusterConfiguration", APIVersion := "kubeadm.k8s.io/v1beta2" } }

/-- A sample worker node with one patch of each format. -/
def sampleWorker : Node :=
  { Role := WorkerRole
    KubeadmConfigPatches := ["node-merge"]
    KubeadmConfigPatchesJSON6902 :=
      [{ Group := "kubeadm.k8s.io", Version := "v1beta2", Kind := "ClusterConfiguration",
         Patch := "node-json" }] }

/-- A sample cluster: a control-plane node without patches, the sample worker,
and one cluster-level patch of each format. -/
def sampleCluster : Cluster :=
  { Nodes := [{ Role := ControlPlaneRole }, sampleWorker]
    KubeadmConfigPatches := ["cluster-merge"]
    KubeadmConfigPatchesJSON6902 := [{ Kind := "ClusterConfiguration", Patch := "cluster-json" }] }

/-- A sample cluster without any patch: two nodes and a pod subnet. -/
def samplePlainCluster : Cluster :=
  { Nodes := [{ Role := ControlPlaneRole }, { Role := WorkerRole }]
    Networking := { PodSubnet := "10.244.0.0/16" } }

/-- A sample cluster with three violations: a pod subnet that is no network
prefix and a port mapping whose container port is -1 and whose host port is
70000. -/
def sampleFaultyCluster : Cluster :=
  { Nodes := [{ ExtraPortMappings := [{ ContainerPort := -1, HostPort := 70000 }] }]
    Networking := { PodSubnet := "not-a-cidr" } }

/-! ## The declared constants -/

/-- C8: the node-role and IP-family constants are the documented strings,
ControlPlaneRole "control-plane", WorkerRole "worker", IPv4Family "ipv4" and
IPv6Family "ipv6", and these are all the constants the two types declare. -/
theorem role_and_family_constants :
    ControlPlaneRole.val = "control-plane" ∧ WorkerRole.val = "worker" ∧
    IPv4Family.val = "ipv4" ∧ IPv6Family.val = "ipv6" ∧
    NodeRole.declared = [ControlPlaneRole, WorkerRole] ∧
    ClusterIPFamily.declared = [IPv4Family, IPv6Family] ∧
    NodeRole.declared.map NodeRole.val = ["control-plane", "worker"] ∧
    ClusterIPFamily.declared.map ClusterIPFamily.val = ["ipv4", "ipv6"] := by
  refine ⟨rfl, rfl, rfl, rfl, rfl, rfl, rfl, rfl⟩

/-- C9: the mount-propagation constants are exactly the strings "None",
"HostToContainer" and "Bidirectional", the port-mapping protocol constants are
exactly "TCP", "UDP" and "SCTP", in that letter case: the lower-case spellings
are not among them. -/
theorem propagation_and_protocol_constants :
    MountPropagationNone.val = "None" ∧
    MountPropagationHostToContainer.val = "HostToContainer" ∧
    MountPropagationBidirectional.val = "Bidirectional" ∧
    PortMappingProtocolTCP.val = "TCP" ∧ PortMappingProtocolUDP.val = "UDP" ∧
    PortMappingProtocolSCTP.val = "SCTP" ∧
    MountPropagation.declared.map MountPropagation.val =
      ["None", "HostToContainer", "Bidirectional"] ∧
    PortMappingProtocol.declared.map PortMappingProtocol.val = ["TCP", "UDP", "SCTP"] ∧
    (⟨"none"⟩ : MountPropagation) ∉ MountPropagation.declared ∧
    (⟨"tcp"⟩ : PortMappingProtocol) ∉ PortMappingProtocol.declared := by
  refine ⟨rfl, rfl, rfl, rfl, rfl, rfl, rfl, rfl, by decide, by decide⟩

/-- C10: within each of the four string types the declared constants are
pairwise distinct and none of them is the empty string, the zero value of an
unset field. -/
theorem declared_constants_distinct_and_nonempty :
    ((NodeRole.declared.map NodeRole.val).Nodup ∧
      "" ∉ NodeRole.declared.map NodeRole.val) ∧
    ((ClusterIPFamily.declared.map ClusterIPFamily.val).Nodup ∧
      "" ∉ ClusterIPFamily.declared.map ClusterIPFamily.val) ∧
    ((MountPropagation.declared.map MountPropagation.val).Nodup ∧
      "" ∉ MountPropagation.declared.map MountPropagation.val) ∧
    ((PortMappingProtocol.declared.map PortMappingProtocol.val).Nodup ∧
      "" ∉ PortMappingProtocol.declared.map PortMappingProtocol.val) ∧
    ({} : Node).Role ∉ NodeRole.declared ∧
    ({} : Networking).IPFamily ∉ ClusterIPFamily.declared ∧
    ({} : Mount).Propagation ∉ MountPropagation.declared ∧
    ({} : PortMapping).Protocol ∉ PortMappingProtocol.declared := by
  refine ⟨⟨by decide, by decide⟩, ⟨by decide, by decide⟩, ⟨by decide, by decide⟩,
    ⟨by decide, by decide⟩, by decide, by decide, by decide, by decide⟩

/-! ## The string types are open -/

/-- C5, counterexample: a Role, an IPFamily, a Propagation and a Protocol field
each hold the string "bogus", which is none of the declared constants of its
type. -/
theorem fields_hold_undeclared_values :
    ({ Role := ⟨"bogus"⟩ } : Node).Role ∉ NodeRole.declared ∧
    ({ IPFamily := ⟨"bogus"⟩ } : Networking).IPFamily ∉ ClusterIPFamily.declared ∧
    ({ Propagation := ⟨"bogus"⟩ } : Mount).Propagation ∉ MountPropagation.declared ∧
    ({ Protocol := ⟨"bogus"⟩ } : PortMapping).Protocol ∉ PortMappingProtocol.declared := by
  refine ⟨by decide, by decide, by decide, by decide⟩

/-- C5, amended: the four types are string types. A Role, IPFamily, Propagation
or Protocol field can hold any string `s`, and the value held is one of the
declared constants of its type exactly when `s` is one of the declared
strings. -/
theorem fields_hold_any_string (s : String) :
    (({ Role := ⟨s⟩ } : Node).Role.val = s ∧
      (({ Role := ⟨s⟩ } : Node).Role ∈ NodeRole.declared ↔
        s = "control-plane" ∨ s = "worker")) ∧
    (({ IPFamily := ⟨s⟩ } : Networking).IPFamily.val = s ∧
      (({ IPFamily := ⟨s⟩ } : Networking).IPFamily ∈ ClusterIPFamily.declared ↔
        s = "ipv4" ∨ s = "ipv6")) ∧
    (({ Propagation := ⟨s⟩ } : Mount).Propagation.val = s ∧
      (({ Propagation := ⟨s⟩ } : Mount).Propagation ∈ MountPropagation.declared ↔
        s = "None" ∨ s = "HostToContainer" ∨ s = "Bidirectional")) ∧
    (({ Protocol := ⟨s⟩ } : PortMapping).Protocol.val = s ∧
      (({ Protocol := ⟨s⟩ } : PortMapping).Protocol ∈ PortMappingProtocol.declared ↔
        s = "TCP" ∨ s = "UDP" ∨ s = "SCTP")) := by
  simp [NodeRole.declared, ClusterIPFamily.declared, MountPropagation.declared,
    PortMappingProtocol.declared, ControlPlaneRole, WorkerRole, IPv4Family, IPv6Family,
    MountPropagationNone, MountPropagationHostToContainer, MountPropagationBidirectional,
    PortMappingProtocolTCP, PortMappingProtocolUDP, PortMappingProtocolSCTP]

/-! ## The unset Role

The defaulting function is modelled from the specification, see `defaultedRole`. -/

/-- C6: for every node whose Role is unset (the zero value of the field) the
role of the node is control-plane: the defaulted role equals ControlPlaneRole,
the string "control-plane", and validation accepts the node as such. A Role that
is set is left as it is. -/
theorem unset_role_defaults_to_control_plane (n : Node) (index : Nat)
    (hunset : n.Role = ⟨""⟩) :
    defaultedRole n = ControlPlaneRole ∧ (defaultedRole n).val = "control-plane" ∧
      validateRole index n = [] ∧
      ∀ m : Node, m.Role ≠ ⟨""⟩ → defaultedRole m = m.Role := by
  refine ⟨?_, ?_, ?_, ?_⟩
  · simp [defaultedRole, hunset]
  · simp [defaultedRole, hunset, ControlPlaneRole]
  · simp [validateRole, defaultedRole, hunset, NodeRole.declared]
  · intro m hm
    simp [defaultedRole, hm]

/-- C6, witness: the node with no field set has the unset Role and defaults to
control-plane; the worker role of a node that sets it is kept. -/
theorem unset_role_defaults_to_control_plane_witness :
    ({} : Node).Role = ⟨""⟩ ∧
      (defaultedRole ({} : Node) = ControlPlaneRole ∧
        (defaultedRole ({} : Node)).val = "control-plane" ∧
        validateRole 0 ({} : Node) = [] ∧
        ∀ m : Node, m.Role ≠ ⟨""⟩ → defaultedRole m = m.Role) ∧
      defaultedRole { Role := WorkerRole } = WorkerRole :=
  ⟨rfl, unset_role_defaults_to_control_plane {} 0 rfl, by decide⟩

/-! ## The fields of PatchJSON6902 -/

/-- C7: evaluation of the struct. Its yaml keys are group, version, kind and
patch; neither name nor namespace is among them, and two values are equal as
soon as they agree on Group, Version, Kind and Patch, so the struct carries
nothing else in which two patches could differ. -/
theorem patchJSON6902_carries_four_fields :
    PatchJSON6902.yamlKeys = ["group", "version", "kind", "patch"] ∧
    "name" ∉ PatchJSON6902.yamlKeys ∧ "namespace" ∉ PatchJSON6902.yamlKeys ∧
    ∀ p q : PatchJSON6902,
      (p = q ↔ p.Group = q.Group ∧ p.Version = q.Version ∧ p.Kind = q.Kind ∧
        p.Patch = q.Patch) := by
  refine ⟨rfl, by decide, by decide, ?_⟩
  intro p q
  cases p
  cases q
  simp

/-! ## Composition order -/

/-- Applying two lists of steps one after the other is applying the first and,
when it did not fail, the second to its result. -/
theorem applyInOrder_append {Doc : Type} (E : PatchEngine Doc) (t : TargetKind)
    (xs ys : List PatchStep) (d : Doc) :
    applyInOrder E t (xs ++ ys) d =
      match applyInOrder E t xs d with
      | (d1, none) => applyInOrder E t ys d1
      | (d1, some e) => (d1, some e) := by
  induction xs generalizing d with
  | nil => simp [applyInOrder]
  | cons s ss ih =>
    simp only [List.cons_append, applyInOrder]
    cases h : applyStep E t d s with
    | ok d1 => simp [ih]
    | error e => simp

/-- A merge-patch stage is the flat application of its steps. -/
theorem runStage_merge_eq {Doc : Type} (E : PatchEngine Doc) (scope : Scope) (t : TargetKind)
    (ps : List String) (i : Nat) (d : Doc) :
    runStage E.applyMergePatch (fun i f => ⟨f, scope, .mergePatch, i, t⟩) i ps d =
      applyInOrder E t (mergeSteps scope i ps) d := by
  induction ps generalizing i d with
  | nil => simp [runStage, mergeSteps, applyInOrder]
  | cons p ps ih =>
    simp only [runStage, mergeSteps, applyInOrder, applyStep]
    cases h : E.applyMergePatch d p with
    | ok d1 => simp [ih]
    | error f => simp

/-- A JSON-Patch stage is the flat application of its steps. -/
theorem runStage_json_eq {Doc : Type} (E : PatchEngine Doc) (scope : Scope) (t : TargetKind)
    (ps : List JSONPatchDoc) (i : Nat) (d : Doc) :
    runStage (applyJSONPatchDoc E) (fun i f => ⟨f, scope, .json6902, i, t⟩) i ps d =
      applyInOrder E t (jsonSteps scope i ps) d := by
  induction ps generalizing i d with
  | nil => simp [runStage, jsonSteps, applyInOrder]
  | cons p ps ih =>
    simp only [runStage, jsonSteps, applyInOrder, applyStep]
    cases h : applyJSONPatchDoc E d p with
    | ok d1 => simp [ih]
    | error f => simp

/-- The registry holds, at the index of a node, the sequences of that node. -/
theorem buildRegistry_node (c : Cluster) (i : Nat) (n : Node) (h : c.Nodes[i]? = some n) :
    (BuildRegistry c).node i = nodePatches n := by
  simp [BuildRegistry, PatchRegistry.node, List.getElem?_map, h]

/-- Compose is the flat application of the four stages in their order. -/
theorem compose_eq_applyInOrder {Doc : Type} (E : PatchEngine Doc) (base : Doc)
    (t : TargetKind) (i : Nat) (r : PatchRegistry) :
    Compose E base t i r =
      applyInOrder E t
        (mergeSteps .cluster 0 (r.cluster.merge t) ++ jsonSteps .cluster 0 (r.cluster.json t) ++
          mergeSteps .node 0 ((r.node i).merge t) ++ jsonSteps .node 0 ((r.node i).json t))
        base := by
  simp only [Compose, mergeStage, jsonStage, runStage_merge_eq, runStage_json_eq,
    applyInOrder_append]
  rcases applyInOrder E t (mergeSteps .cluster 0 (r.cluster.merge t)) base with ⟨d1, _ | e1⟩
  · simp only
    rcases applyInOrder E t (jsonSteps .cluster 0 (r.cluster.json t)) d1 with ⟨d2, _ | e2⟩
    · simp only
      rcases applyInOrder E t (mergeSteps .node 0 ((r.node i).merge t)) d2 with ⟨d3, _ | e3⟩
      · simp only
      · simp only
    · simp only
  · simp only

/-- C1: for every base document, every cluster and every node of it, the
composed kubeadm document (and the error, if a patch fails) is the result of
applying, from left to right, the cluster-level KubeadmConfigPatches, the
cluster-level KubeadmConfigPatchesJSON6902, the KubeadmConfigPatches of the node
and the KubeadmConfigPatchesJSON6902 of the node, each in declaration order; the
cluster-level patches come before the node-level ones. -/
theorem compose_kubeadm_in_fixed_order {Doc : Type} (E : PatchEngine Doc) (base : Doc)
    (c : Cluster) (i : Nat) (n : Node) (hnode : c.Nodes[i]? = some n) :
    Compose E base .kubeadmConfig i (BuildRegistry c) =
      applyInOrder E .kubeadmConfig
        (mergeSteps .cluster 0 c.KubeadmConfigPatches ++
          jsonSteps .cluster 0 (c.KubeadmConfigPatchesJSON6902.map .selected) ++
          mergeSteps .node 0 n.KubeadmConfigPatches ++
          jsonSteps .node 0 (n.KubeadmConfigPatchesJSON6902.map .selected))
        base := by
  rw [compose_eq_applyInOrder, buildRegistry_node c i n hnode]
  rfl

/-- C1, witness: the sample cluster composed for its worker node (index 1) over
the recording engine; the record of the final document lists the four patches
in the fixed order, and applying the node-level steps before the cluster-level
ones gives another document. -/
theorem compose_kubeadm_in_fixed_order_witness :
    sampleCluster.Nodes[1]? = some sampleWorker ∧
    Compose traceEngine sampleBase .kubeadmConfig 1 (BuildRegistry sampleCluster) =
      applyInOrder traceEngine .kubeadmConfig
        (mergeSteps .cluster 0 sampleCluster.KubeadmConfigPatches ++
          jsonSteps .cluster 0 (sampleCluster.KubeadmConfigPatchesJSON6902.map .selected) ++
          mergeSteps .node 0 sampleWorker.KubeadmConfigPatches ++
          jsonSteps .node 0 (sampleWorker.KubeadmConfigPatchesJSON6902.map .selected))
        sampleBase ∧
    Compose traceEngine sampleBase .kubeadmConfig 1 (BuildRegistry sampleCluster) =
      ({ sampleBase with
          applied := [(.mergePatch, "cluster-merge"), (.json6902, "cluster-json"),
            (.mergePatch, "node-merge"), (.json6902, "node-json")] }, none) ∧
    Compose traceEngine sampleBase .kubeadmConfig 1 (BuildRegistry sampleCluster) ≠
      applyInOrder traceEngine .kubeadmConfig
        (mergeSteps .node 0 sampleWorker.KubeadmConfigPatches ++
          jsonSteps .node 0 (sampleWorker.KubeadmConfigPatchesJSON6902.map .selected) ++
          mergeSteps .cluster 0 sampleCluster.KubeadmConfigPatches ++
          jsonSteps .cluster 0 (sampleCluster.KubeadmConfigPatchesJSON6902.map .selected))
        sampleBase :=
  ⟨rfl, compose_kubeadm_in_fixed_order traceEngine sampleBase sampleCluster 1 sampleWorker rfl,
    by decide, by decide⟩

/-! ## Composition without patches -/

/-- When no node declares a patch, the node-level sequences are empty at every
index. -/
theorem buildRegistry_node_of_no_patches (c : Cluster) (i : Nat)
    (hnodes : ∀ n ∈ c.Nodes,
      n.KubeadmConfigPatches = [] ∧ n.KubeadmConfigPatchesJSON6902 = []) :
    (BuildRegistry c).node i = {} := by
  cases h : c.Nodes[i]? with
  | none => simp [BuildRegistry, PatchRegistry.node, List.getElem?_map, h]
  | some n =>
    rw [buildRegistry_node c i n h]
    obtain ⟨h1, h2⟩ := hnodes n (List.getElem?_mem h)
    simp [nodePatches, h1, h2]

/-- C2: for every valid cluster all of whose patch sequences are empty (the four
cluster-level ones and the two of every node), for every node index and both
target kinds, Compose returns the base document unchanged and no error. -/
theorem compose_without_patches {Doc : Type} (E : PatchEngine Doc) (validCIDR : String → Bool)
    (base : Doc) (c : Cluster) (target : TargetKind) (i : Nat)
    (_hvalid : Validate validCIDR c = [])
    (hmerge : c.KubeadmConfigPatches = []) (hjson : c.KubeadmConfigPatchesJSON6902 = [])
    (hrmerge : c.ContainerdConfigPatches = []) (hrjson : c.ContainerdConfigPatchesJSON6902 = [])
    (hnodes : ∀ n ∈ c.Nodes,
      n.KubeadmConfigPatches = [] ∧ n.KubeadmConfigPatchesJSON6902 = []) :
    Compose E base target i (BuildRegistry c) = (base, none) := by
  rw [compose_eq_applyInOrder, buildRegistry_node_of_no_patches c i hnodes]
  cases target <;>
    simp [BuildRegistry, ScopePatches.merge, ScopePatches.json, hmerge, hjson, hrmerge, hrjson,
      mergeSteps, jsonSteps, applyInOrder]

/-- C2, witness: the sample cluster without patches is valid, and composing the
runtime config of its second node returns the base document. -/
theorem compose_without_patches_witness :
    Validate isIPv4CIDR samplePlainCluster = [] ∧
    Compose traceEngine sampleBase .runtimeConfig 1 (BuildRegistry samplePlainCluster) =
      (sampleBase, none) :=
  ⟨by decide,
    compose_without_patches traceEngine isIPv4CIDR sampleBase samplePlainCluster
      .runtimeConfig 1 (by decide) rfl rfl rfl rfl (by decide)⟩

/-! ## Validation -/

/-- An error of the element at position `j` is among the collected errors. -/
theorem mem_collectIndexed {α ε : Type} (check : Nat → α → List ε) (xs : List α)
    (i j : Nat) (x : α) (e : ε) (hx : xs[j]? = some x) (he : e ∈ check (i + j) x) :
    e ∈ collectIndexed check i xs := by
  induction xs generalizing i j with
  | nil => simp at hx
  | cons y ys ih =>
    cases j with
    | zero =>
      simp at hx
      subst hx
      simp only [collectIndexed, List.mem_append]
      exact Or.inl (by simpa using he)
    | succ k =>
      simp at hx
      simp only [collectIndexed, List.mem_append]
      refine Or.inr (ih (i + 1) k hx ?_)
      rw [show i + 1 + k = i + (k + 1) by omega]
      exact he

/-- The collected errors are exactly the errors of the elements, each at its
position. -/
theorem mem_collectIndexed_iff {α ε : Type} (check : Nat → α → List ε) (xs : List α)
    (i : Nat) (e : ε) :
    e ∈ collectIndexed check i xs ↔ ∃ j x, xs[j]? = some x ∧ e ∈ check (i + j) x := by
  constructor
  · intro h
    induction xs generalizing i with
    | nil => simp [collectIndexed] at h
    | cons y ys ih =>
      simp only [collectIndexed, List.mem_append] at h
      rcases h with h | h
      · exact ⟨0, y, by simp, by simpa using h⟩
      · obtain ⟨j, x, hx, he⟩ := ih (i + 1) h
        refine ⟨j + 1, x, by simpa using hx, ?_⟩
        rw [show i + (j + 1) = i + 1 + j by omega]
        exact he
  · rintro ⟨j, x, hx, he⟩
    exact mem_collectIndexed check xs i j x e hx he

/-- Some error of two lists put together has the field exactly when some error
of one of them has it. -/
theorem exists_field_append (xs ys : List ValidationError) (f : FieldPath) :
    (∃ e ∈ xs ++ ys, e.field = f) ↔ (∃ e ∈ xs, e.field = f) ∨ (∃ e ∈ ys, e.field = f) := by
  constructor
  · rintro ⟨e, he, hf⟩
    rcases List.mem_append.mp he with h | h
    · exact Or.inl ⟨e, h, hf⟩
    · exact Or.inr ⟨e, h, hf⟩
  · rintro (⟨e, h, hf⟩ | ⟨e, h, hf⟩)
    · exact ⟨e, List.mem_append.mpr (Or.inl h), hf⟩
    · exact ⟨e, List.mem_append.mpr (Or.inr h), hf⟩

/-- Some collected error has the field exactly when some error of some element
has it. -/
theorem exists_field_collectIndexed {α : Type} (check : Nat → α → List ValidationError)
    (xs : List α) (i : Nat) (f : FieldPath) :
    (∃ e ∈ collectIndexed check i xs, e.field = f) ↔
      ∃ j x, xs[j]? = some x ∧ ∃ e ∈ check (i + j) x, e.field = f := by
  constructor
  · rintro ⟨e, he, hf⟩
    obtain ⟨j, x, hx, hmem⟩ := (mem_collectIndexed_iff check xs i e).mp he
    exact ⟨j, x, hx, e, hmem, hf⟩
  · rintro ⟨j, x, hx, e, hmem, hf⟩
    exact ⟨e, (mem_collectIndexed_iff check xs i e).mpr ⟨j, x, hx, hmem⟩, hf⟩

/-- The field of some error of a one-error check. -/
theorem exists_field_ite_singleton (p : Prop) [Decidable p] (x : ValidationError)
    (f : FieldPath) :
    (∃ e ∈ (if p then [x] else []), e.field = f) ↔ p ∧ x.field = f := by
  split_ifs with h <;> simp [h]

/-- The field of some error of the role check. -/
theorem exists_field_validateRole (i : Nat) (n : Node) (f : FieldPath) :
    (∃ e ∈ validateRole i n, e.field = f) ↔
      defaultedRole n ∉ NodeRole.declared ∧ FieldPath.nodeRole i = f := by
  unfold validateRole
  split_ifs with h <;> simp [h]

/-- Validate reports a field exactly when the cluster violates a check there. -/
theorem validate_field_iff (validCIDR : String → Bool) (c : Cluster) (f : FieldPath) :
    (∃ e ∈ Validate validCIDR c, e.field = f) ↔ Violation validCIDR c f := by
  simp only [Validate, validateNode, validateSubnet, validateMount, validatePortMapping,
    validatePort, validatePatch, exists_field_append, exists_field_collectIndexed,
    exists_field_ite_singleton, exists_field_validateRole, Nat.zero_add]
  cases f <;> simp [Violation]
  all_goals
    first
    | exact ⟨fun ⟨_, x, hx, hp, hj⟩ => ⟨x, hj ▸ hx, hp⟩, fun ⟨x, hx, hp⟩ => ⟨_, x, hx, hp, rfl⟩⟩
    | exact ⟨fun ⟨_, n, hn, _, x, hx, hp, hi, hj⟩ => ⟨n, hi ▸ hn, x, hj ▸ hx, hp⟩,
        fun ⟨n, hn, x, hx, hp⟩ => ⟨_, n, hn, _, x, hx, hp, rfl, rfl⟩⟩

/-- C4: Validate reports all violations of a cluster in one pass and does not
stop at the first. For every cluster whose PodSubnet is present and no valid
network prefix, and every port mapping of it (mapping `j` of node `i`), the one
returned list holds an error for the pod subnet field and, for each port of the
mapping that is non-zero and outside 1..65535, an error for that port. In
general the fields the list reports are exactly the fields at which the cluster
violates a check of section 4.1. -/
theorem validate_reports_every_violation (validCIDR : String → Bool) (c : Cluster)
    (i j : Nat) (n : Node) (pm : PortMapping)
    (hpresent : c.Networking.PodSubnet ≠ "")
    (hcidr : validCIDR c.Networking.PodSubnet = false)
    (hnode : c.Nodes[i]? = some n) (hmapping : n.ExtraPortMappings[j]? = some pm) :
    (∃ e ∈ Validate validCIDR c, e.field = .podSubnet) ∧
    (pm.ContainerPort ≠ 0 ∧ ¬ (1 ≤ pm.ContainerPort ∧ pm.ContainerPort ≤ 65535) →
      ∃ e ∈ Validate validCIDR c, e.field = .containerPort i j) ∧
    (pm.HostPort ≠ 0 ∧ ¬ (1 ≤ pm.HostPort ∧ pm.HostPort ≤ 65535) →
      ∃ e ∈ Validate validCIDR c, e.field = .hostPort i j) ∧
    (∀ f : FieldPath, (∃ e ∈ Validate validCIDR c, e.field = f) ↔ Violation validCIDR c f) := by
  refine ⟨?_, ?_, ?_, fun f => validate_field_iff validCIDR c f⟩
  · exact (validate_field_iff validCIDR c .podSubnet).mpr ⟨hpresent, hcidr⟩
  · intro hbad
    exact (validate_field_iff validCIDR c (.containerPort i j)).mpr
      ⟨n, pm, hnode, hmapping, hbad.1, hbad.2⟩
  · intro hbad
    exact (validate_field_iff validCIDR c (.hostPort i j)).mpr
      ⟨n, pm, hnode, hmapping, hbad.1, hbad.2⟩

/-- C4, witness: the sample cluster with pod subnet "not-a-cidr", container port
-1 and host port 70000; one call of Validate returns an error for each of the
three, and nothing else. -/
theorem validate_reports_every_violation_witness :
    (sampleFaultyCluster.Networking.PodSubnet ≠ "" ∧
      isIPv4CIDR sampleFaultyCluster.Networking.PodSubnet = false ∧
      sampleFaultyCluster.Nodes[0]? =
        some { ExtraPortMappings := [{ ContainerPort := -1, HostPort := 70000 }] } ∧
      ({ ExtraPortMappings := [{ ContainerPort := -1, HostPort := 70000 }] } :
        Node).ExtraPortMappings[0]? = some { ContainerPort := -1, HostPort := 70000 }) ∧
    ((∃ e ∈ Validate isIPv4CIDR sampleFaultyCluster, e.field = .podSubnet) ∧
      (∃ e ∈ Validate isIPv4CIDR sampleFaultyCluster, e.field = .containerPort 0 0) ∧
      (∃ e ∈ Validate isIPv4CIDR sampleFaultyCluster, e.field = .hostPort 0 0)) ∧
    Validate isIPv4CIDR sampleFaultyCluster =
      [⟨.podSubnet, "not a valid network prefix"⟩, ⟨.containerPort 0 0, "port out of range"⟩,
        ⟨.hostPort 0 0, "port out of range"⟩] :=
  ⟨⟨by decide, by decide, rfl, rfl⟩,
    ⟨(validate_reports_every_violation isIPv4CIDR sampleFaultyCluster 0 0
        { ExtraPortMappings := [{ ContainerPort := -1, HostPort := 70000 }] }
        { ContainerPort := -1, HostPort := 70000 } (by decide) (by decide) rfl rfl).1,
      (validate_reports_every_violation isIPv4CIDR sampleFaultyCluster 0 0
        { ExtraPortMappings := [{ ContainerPort := -1, HostPort := 70000 }] }
        { ContainerPort := -1, HostPort := 70000 } (by decide) (by decide) rfl rfl).2.1
        (by decide),
      (validate_reports_every_violation isIPv4CIDR sampleFaultyCluster 0 0
        { ExtraPortMappings := [{ ContainerPort := -1, HostPort := 70000 }] }
        { ContainerPort := -1, HostPort := 70000 } (by decide) (by decide) rfl rfl).2.2.1
        (by decide)⟩,
    by decide⟩

end V1alpha4
